import Mathlib

/-!
Verification of the address-issue reconciliation services.

The repository holds two near-duplicate Node.js services:
  * `shopify-address-poller.js` (the unnamed source file): polls Shopify for orders whose
    `shippingAddress.validationResultSummary` is WARNING or ERROR, looks the order up in
    ShipStation by order number, tags it "ADDRESS ISSUE", and records the outcome in a SQLite
    `processed` table keyed uniquely by the Shopify order gid.  A `state` table holds the
    `last_shopify_poll_iso` watermark.
  * `address-issue-server.js`: polls ShipStation directly and tags orders whose
    `shipTo.addressVerified` equals "Address validation failed".

This file is a shallow embedding of the reconciliation core of the poller (classifier,
order-number normalisation, ledger upsert and dedup check, the per-order loop body of
`pollOnce`, the watermark handling, and the `setInterval` scheduling of `start`), together
with the classifier of `address-issue-server.js`.  Machine timestamps are abstracted to `Nat`
instants; the external HTTP world (Shopify fetch, ShipStation lookup, tag application) is an
explicit environment of oracles, mirroring exactly which call sites can fail and where the
JavaScript catches.
-/

namespace AddressIssue

/-! ## JavaScript string primitives

JS `.trim()`, `.toUpperCase()`, `.toLowerCase()` modelled character-wise on the underlying
character list (the source only ever feeds them ASCII vendor vocabulary). -/

def trimStr (s : String) : String :=
  String.mk (((s.data.dropWhile Char.isWhitespace).reverse.dropWhile Char.isWhitespace).reverse)

def upperStr (s : String) : String :=
  String.mk (s.data.map Char.toUpper)

def lowerStr (s : String) : String :=
  String.mk (s.data.map Char.toLower)

/-- `normalize(s)` from the poller: `String(s ?? "").trim()`.  A missing/null field becomes
the empty string before trimming. -/
def normalize (s : Option String) : String :=
  trimStr (s.getD "")

/-! ## Source orders and the two classifiers -/

/-- Shopify `shippingAddress` subobject: only the validation summary is consumed. -/
structure ShippingAddress where
  validationResultSummary : Option String
deriving Repr, DecidableEq

/-- A Shopify order as consumed by the poller: gid, human-readable name ("#66053"),
optional shipping address. -/
structure ShopifyOrder where
  id : String
  name : Option String
  shippingAddress : Option ShippingAddress
deriving Repr, DecidableEq

/-- `isShopifyAddressIssue(order)`: normalises `order?.shippingAddress?.validationResultSummary`,
uppercases it, and tests against WARNING / ERROR (Shopify's summary is one of
NO_ISSUES | WARNING | ERROR | null). -/
def isShopifyAddressIssue (o : ShopifyOrder) : Bool :=
  let v := upperStr (normalize (o.shippingAddress.bind ShippingAddress.validationResultSummary))
  v == "WARNING" || v == "ERROR"

/-- One `#` removed, as JS `String.prototype.replace` with a string pattern replaces only the
first occurrence. -/
def removeFirstHash : List Char → List Char
  | [] => []
  | c :: cs => if c = '#' then cs else c :: removeFirstHash cs

/-- `orderNumberFromShopifyName(name)`: `String(name || "").replace("#", "").trim()`. -/
def orderNumberFromShopifyName (name : Option String) : String :=
  trimStr (String.mk (removeFirstHash (name.getD "").data))

/-- ShipStation `shipTo` subobject of `address-issue-server.js`. -/
structure ShipTo where
  addressVerified : Option String
deriving Repr, DecidableEq

/-- A ShipStation order as consumed by the classifier of `address-issue-server.js`. -/
structure SSListedOrder where
  shipTo : Option ShipTo
deriving Repr, DecidableEq

def ADDRESS_FAILED_VALUE : String := "Address validation failed"

/-- `isAddressVerificationFailed(order)`: lowercase comparison of
`order?.shipTo?.addressVerified` against "Address validation failed". -/
def isAddressVerificationFailed (o : SSListedOrder) : Bool :=
  lowerStr ((o.shipTo.bind ShipTo.addressVerified).getD "") == lowerStr ADDRESS_FAILED_VALUE

/-! ## The spec's 4-value address-validation enum -/

/-- The spec's fixed 4-value address-status enum (§3 / §4.3). -/
inductive AddrStatus where
  | notValidated
  | verified
  | warning
  | failed
deriving Repr, DecidableEq

/-- Modelled from the spec: `has_address_issue` over the 4-value enum returns true exactly
for the warning- and failed-equivalent values (§4.3, §8 Classifier correctness). -/
def has_address_issue_spec : AddrStatus → Bool
  | .warning => true
  | .failed => true
  | _ => false

/-- Shopify's vocabulary for the 4-value enum, per the comment at `isShopifyAddressIssue`:
NO_ISSUES | WARNING | ERROR | null. -/
def shopifyVocab : AddrStatus → Option String
  | .notValidated => none
  | .verified => some "NO_ISSUES"
  | .warning => some "WARNING"
  | .failed => some "ERROR"

/-- ShipStation's vocabulary for the 4-value enum, per the comment above
`ADDRESS_FAILED_VALUE` in `address-issue-server.js`. -/
def shipstationVocab : AddrStatus → Option String
  | .notValidated => some "Address not yet validated"
  | .verified => some "Address validated successfully"
  | .warning => some "Address validation warning"
  | .failed => some "Address validation failed"

/-- A Shopify order carrying the given validation summary. -/
def shopifyOrderWith (v : Option String) : ShopifyOrder :=
  { id := "gid://shopify/Order/1", name := some "#1001", shippingAddress := some ⟨v⟩ }

/-- A ShipStation order carrying the given `addressVerified` value. -/
def ssOrderWith (v : Option String) : SSListedOrder :=
  { shipTo := some ⟨v⟩ }

/-! ## The `processed` ledger (SQLite table of the poller)

One row per Shopify order gid (`UNIQUE(shopify_order_gid)`).  `CURRENT_TIMESTAMP` is
abstracted to a `Nat` instant supplied at each write. -/

/-- A row of the `processed` table of the poller. -/
structure Row where
  shopify_order_gid : String
  shopify_order_name : Option String
  shipstation_order_id : Option Int
  status : String
  note : Option String
  created_at : Nat
  updated_at : Nat
deriving Repr, DecidableEq

abbrev Ledger := List Row

/-- First row with the given gid, if any (with the UNIQUE constraint intact there is at
most one). -/
def findRow (L : Ledger) (gid : String) : Option Row :=
  L.find? (fun r => r.shopify_order_gid == gid)

/-- `wasProcessed(shopifyOrderGid)`: `SELECT 1 FROM processed WHERE shopify_order_gid = ?`. -/
def wasProcessed (L : Ledger) (gid : String) : Bool :=
  (findRow L gid).isSome

/-- JS `x || null` on an optional integer bind parameter: `0` is falsy and becomes null. -/
def intOrNull (x : Option Int) : Option Int :=
  x.bind (fun n => if n == 0 then none else some n)

/-- JS `x || null` on an optional string bind parameter: `""` is falsy and becomes null. -/
def strOrNull (x : Option String) : Option String :=
  x.bind (fun s => if s == "" then none else some s)

/-- The per-row update of `markProcessed`'s `ON CONFLICT ... DO UPDATE` clause: overwrite
name, shipstation id, status, note and `updated_at`; `created_at` is not in the SET list. -/
def updateRow (now : Nat) (nm : Option String) (ssid : Option Int) (status : String)
    (note : Option String) (r : Row) : Row :=
  { r with shopify_order_name := nm, shipstation_order_id := intOrNull ssid,
           status := status, note := strOrNull note, updated_at := now }

/-- `markProcessed({...})`: `INSERT INTO processed ... ON CONFLICT(shopify_order_gid) DO
UPDATE SET ...`.  The bind parameters apply `shipstationOrderId || null` and `note || null`.
A conflicting row is updated in place; otherwise a fresh row is inserted with
`created_at = updated_at = now`. -/
def markProcessed (L : Ledger) (now : Nat) (gid : String) (nm : Option String)
    (ssid : Option Int) (status : String) (note : Option String) : Ledger :=
  if wasProcessed L gid then
    L.map (fun r => if r.shopify_order_gid == gid then updateRow now nm ssid status note r else r)
  else
    L ++ [{ shopify_order_gid := gid, shopify_order_name := nm,
            shipstation_order_id := intOrNull ssid, status := status, note := strOrNull note,
            created_at := now, updated_at := now }]

/-- The gids present in the ledger, in row order. -/
def keys (L : Ledger) : List String :=
  L.map Row.shopify_order_gid

/-! ## External world (HTTP oracles) -/

/-- The single field of a ShipStation order consumed after lookup. -/
structure SSFound where
  orderId : Int
deriving Repr, DecidableEq

/-- Outcome of the raw ShipStation `/orders?orderNumber=` request inside
`findShipStationOrder`: HTTP success carrying the first matching order (or none), or a
thrown network/API error. -/
inductive LookupResult where
  | ok (found : Option SSFound)
  | err (msg : String)
deriving Repr, DecidableEq

/-- Outcome of `addTagToShipStationOrder` (`POST /orders/addtag`). -/
inductive TagResult where
  | ok
  | err (msg : String)
deriving Repr, DecidableEq

/-- Outcome of `fetchShopifyOrdersUpdatedSince`: the full paged order list, or a thrown
error (HTTP failure or GraphQL `errors`) on some page. -/
inductive FetchResult where
  | ok (orders : List ShopifyOrder)
  | err
deriving Repr, DecidableEq

/-- The external systems as deterministic oracles for one execution: Shopify fetch keyed by
the `since` instant, ShipStation search keyed by order number, tag application keyed by
ShipStation order id. -/
structure Env where
  fetch : Nat → FetchResult
  lookup : String → LookupResult
  tag : Int → TagResult

/-- `findShipStationOrder(orderNumber)`: the `try/catch` around the search swallows any
thrown error, logs it, and returns null — a failed lookup is indistinguishable from an
absent order to the caller. -/
def findShipStationOrder (res : LookupResult) : Option SSFound :=
  match res with
  | .ok found => found
  | .err _ => none

/-! ## One reconciliation pass (`pollOnce`) -/

/-- The six counters reported in the poll summary. -/
structure Stats where
  inspected : Nat
  addressIssues : Nat
  newlyTagged : Nat
  notInShipStation : Nat
  skippedAlready : Nat
  errors : Nat
deriving Repr, DecidableEq

def Stats.zero : Stats := ⟨0, 0, 0, 0, 0, 0⟩

/-- State threaded through the `for (const o of orders)` loop of `pollOnce`: the ledger,
the counters, and the current instant (each order is processed at a strictly later instant
than the previous one). -/
structure PassState where
  ledger : Ledger
  stats : Stats
  clock : Nat
deriving Repr, DecidableEq

def ADDRESS_ISSUE_TAG_NAME : String := "ADDRESS ISSUE"

/-- The interpolated note written with status `tagged`. -/
def taggedNote (o : ShopifyOrder) : String :=
  "Tagged " ++ ADDRESS_ISSUE_TAG_NAME ++ " (Shopify validation=" ++
    normalize (o.shippingAddress.bind ShippingAddress.validationResultSummary) ++ ")"

/-- One iteration of the order loop of `pollOnce`: count the order as inspected; if it is
not an address issue, `continue`; count the issue; if the gid is already in the ledger,
count the skip and `continue` (no write); if the normalised order number is empty,
`continue` silently; otherwise look the order up in ShipStation — absent (or failed lookup,
swallowed by `findShipStationOrder`) records `not_found`; a found order is tagged, a thrown
tag error is caught and recorded as `error`. -/
def processOrder (env : Env) (st : PassState) (o : ShopifyOrder) : PassState :=
  let s1 : PassState :=
    { st with stats := { st.stats with inspected := st.stats.inspected + 1 },
              clock := st.clock + 1 }
  if !isShopifyAddressIssue o then s1
  else
    let s2 : PassState :=
      { s1 with stats := { s1.stats with addressIssues := s1.stats.addressIssues + 1 } }
    if wasProcessed s2.ledger o.id then
      { s2 with stats := { s2.stats with skippedAlready := s2.stats.skippedAlready + 1 } }
    else
      let orderNumber := orderNumberFromShopifyName o.name
      if orderNumber == "" then s2
      else
        match findShipStationOrder (env.lookup orderNumber) with
        | none =>
            { s2 with
              stats := { s2.stats with notInShipStation := s2.stats.notInShipStation + 1 },
              ledger := markProcessed s2.ledger st.clock o.id o.name none "not_found"
                (some "Not found in ShipStation yet") }
        | some ss =>
            match env.tag ss.orderId with
            | .ok =>
                { s2 with
                  stats := { s2.stats with newlyTagged := s2.stats.newlyTagged + 1 },
                  ledger := markProcessed s2.ledger st.clock o.id o.name (some ss.orderId)
                    "tagged" (some (taggedNote o)) }
            | .err msg =>
                { s2 with
                  stats := { s2.stats with errors := s2.stats.errors + 1 },
                  ledger := markProcessed s2.ledger st.clock o.id o.name none "error"
                    (some msg) }

def LOOKBACK_MINUTES_ON_FIRST_RUN : Nat := 24 * 60

/-- The `since` bound of a pass: the saved `last_shopify_poll_iso` watermark, or on first
run the lookback window below the pass start (`isoMinutesAgo`). -/
def sinceOf (watermark : Option Nat) (startTime : Nat) : Nat :=
  match watermark with
  | some w => w
  | none => startTime - LOOKBACK_MINUTES_ON_FIRST_RUN

/-- Durable poller state across passes: the watermark (`state` table, key
`last_shopify_poll_iso`) and the `processed` ledger. -/
structure PollerState where
  watermark : Option Nat
  ledger : Ledger
deriving Repr, DecidableEq

/-- `pollOnce(tagId)`.  `startTime` is the instant the pass begins; `fetchEndTime` is the
instant `const newSince = new Date().toISOString()` runs, i.e. right after
`fetchShopifyOrdersUpdatedSince` returns.  A thrown fetch error propagates before anything
is written, so the state is returned unchanged with no stats.  On success the order loop
runs and `setState("last_shopify_poll_iso", newSince)` stores `fetchEndTime`. -/
def pollOnce (env : Env) (startTime fetchEndTime : Nat) (s : PollerState) :
    PollerState × Option Stats :=
  match env.fetch (sinceOf s.watermark startTime) with
  | .err => (s, none)
  | .ok orders =>
      let final := orders.foldl (processOrder env) ⟨s.ledger, Stats.zero, fetchEndTime⟩
      ({ watermark := some fetchEndTime, ledger := final.ledger }, some final.stats)

/-! ## Scheduling (`start`)

`start()` awaits an initial `pollOnce`, then registers
`setInterval(() => pollOnce(tagId).catch(...), POLL_INTERVAL_MS)`.  The timer fires on the
fixed wall-clock interval with no in-progress guard, so with pass durations `d`, pass 0
starts at instant 0 and pass `k+1` starts at `d 0 + (k+1) * interval` whether or not pass
`k` has finished. -/

def passStartTime (d : Nat → Nat) (interval : Nat) : Nat → Nat
  | 0 => 0
  | k + 1 => d 0 + (k + 1) * interval

/-- Pass `k+1` begins strictly before pass `k` has run for its duration `d k`, i.e. the
scheduler starts a new pass while the prior one is still running. -/
def startsDuringPrior (d : Nat → Nat) (interval k : Nat) : Prop :=
  passStartTime d interval (k + 1) < passStartTime d interval k + d k

/-! ## Concrete executions used in counterexamples and witnesses -/

/-- A Shopify order flagged ERROR, order number 1001. -/
def oIssue : ShopifyOrder := ⟨"gid:1", some "#1001", some ⟨some "ERROR"⟩⟩

/-- An execution where Shopify returns no orders and ShipStation is healthy. -/
def envEmpty : Env := ⟨fun _ => .ok [], fun _ => .ok none, fun _ => .ok⟩

/-- An execution where Shopify returns `oIssue` and every ShipStation search throws a
network error. -/
def envLookupErr : Env := ⟨fun _ => .ok [oIssue], fun _ => .err "ECONNRESET", fun _ => .ok⟩

/-- An execution where the Shopify fetch itself throws. -/
def envDown : Env := ⟨fun _ => .err, fun _ => .ok none, fun _ => .ok⟩

/-- A pre-existing ledger row for gid "g". -/
def rowG : Row := ⟨"g", none, none, "tagged", none, 0, 0⟩

/-- The row written for `oIssue` when its ShipStation lookup fails at instant 5. -/
def rowNF : Row :=
  ⟨"gid:1", some "#1001", none, "not_found", some "Not found in ShipStation yet", 5, 5⟩

/-- An issue order whose gid matches the pre-existing row `rowG`. -/
def oG : ShopifyOrder := ⟨"g", some "#2002", some ⟨some "WARNING"⟩⟩

/-- A pre-existing not-found row created at instant 3. -/
def rowOld : Row := ⟨"g", some "#1", none, "not_found", none, 3, 3⟩

/-- Pass durations for the C9 counterexample: pass 1 runs for 20 time units, all other
passes for 5. -/
def dEx : Nat → Nat := fun k => if k = 1 then 20 else 5

/-- An issue order whose name "#" strips to the empty order number. -/
def oHash : ShopifyOrder := ⟨"g3", some "#", some ⟨some "WARNING"⟩⟩

/-! ## Ledger lemmas -/

lemma keys_markProcessed_of_processed (L : Ledger) (now : Nat) (gid : String)
    (nm : Option String) (ssid : Option Int) (status : String) (note : Option String)
    (h : wasProcessed L gid = true) :
    keys (markProcessed L now gid nm ssid status note) = keys L := by
  simp only [markProcessed, h, if_true, keys, List.map_map]
  refine List.map_congr_left (fun r _ => ?_)
  by_cases hg : r.shopify_order_gid = gid <;> simp [hg, updateRow]

lemma keys_markProcessed_of_not_processed (L : Ledger) (now : Nat) (gid : String)
    (nm : Option String) (ssid : Option Int) (status : String) (note : Option String)
    (h : wasProcessed L gid = false) :
    keys (markProcessed L now gid nm ssid status note) = keys L ++ [gid] := by
  simp [markProcessed, h, keys]

lemma wasProcessed_iff_mem_keys (L : Ledger) (gid : String) :
    wasProcessed L gid = true ↔ gid ∈ keys L := by
  simp only [wasProcessed, findRow, keys]
  induction L with
  | nil => simp
  | cons r L ih =>
    rcases eq_or_ne r.shopify_order_gid gid with h | h
    · rw [List.find?_cons_of_pos _ (by simp [h])]
      simp [h]
    · rw [List.find?_cons_of_neg _ (by simp [h])]
      rw [ih]
      simp [Ne.symm h]

lemma wasProcessed_markProcessed_self (L : Ledger) (now : Nat) (gid : String)
    (nm : Option String) (ssid : Option Int) (status : String) (note : Option String) :
    wasProcessed (markProcessed L now gid nm ssid status note) gid = true := by
  rw [wasProcessed_iff_mem_keys]
  cases h : wasProcessed L gid with
  | true =>
      rw [keys_markProcessed_of_processed L now gid nm ssid status note h]
      exact (wasProcessed_iff_mem_keys L gid).1 h
  | false =>
      rw [keys_markProcessed_of_not_processed L now gid nm ssid status note h]
      simp

lemma wasProcessed_markProcessed_mono (L : Ledger) (now : Nat) (gid g : String)
    (nm : Option String) (ssid : Option Int) (status : String) (note : Option String)
    (h : wasProcessed L g = true) :
    wasProcessed (markProcessed L now gid nm ssid status note) g = true := by
  rw [wasProcessed_iff_mem_keys] at h ⊢
  cases hp : wasProcessed L gid with
  | true => rw [keys_markProcessed_of_processed L now gid nm ssid status note hp]; exact h
  | false =>
      rw [keys_markProcessed_of_not_processed L now gid nm ssid status note hp]
      exact List.mem_append.2 (Or.inl h)

lemma nodup_keys_markProcessed (L : Ledger) (now : Nat) (gid : String)
    (nm : Option String) (ssid : Option Int) (status : String) (note : Option String)
    (h : (keys L).Nodup) :
    (keys (markProcessed L now gid nm ssid status note)).Nodup := by
  cases hp : wasProcessed L gid with
  | true => rw [keys_markProcessed_of_processed L now gid nm ssid status note hp]; exact h
  | false =>
      rw [keys_markProcessed_of_not_processed L now gid nm ssid status note hp]
      have hni : gid ∉ keys L := fun hm =>
        by simp [(wasProcessed_iff_mem_keys L gid).2 hm] at hp
      rw [List.nodup_append]
      exact ⟨h, List.nodup_singleton gid, by
        intro a ha hb
        rw [List.mem_singleton] at hb
        exact hni (hb ▸ ha)⟩

lemma length_markProcessed_of_processed (L : Ledger) (now : Nat) (gid : String)
    (nm : Option String) (ssid : Option Int) (status : String) (note : Option String)
    (h : wasProcessed L gid = true) :
    (markProcessed L now gid nm ssid status note).length = L.length := by
  simp [markProcessed, h]

lemma findRow_update_map (L : Ledger) (now : Nat) (gid : String)
    (nm : Option String) (ssid : Option Int) (status : String) (note : Option String)
    (r : Row) (h : findRow L gid = some r) :
    findRow (L.map (fun x =>
        if x.shopify_order_gid == gid then updateRow now nm ssid status note x else x)) gid =
      some (updateRow now nm ssid status note r) := by
  simp only [findRow] at h ⊢
  induction L with
  | nil => simp at h
  | cons a L ih =>
    by_cases ha : a.shopify_order_gid = gid
    · rw [List.find?_cons_of_pos _ (by simp [ha])] at h
      cases h
      rw [List.map_cons, List.find?_cons_of_pos _ (by simp [ha, updateRow])]
      simp [ha]
    · rw [List.find?_cons_of_neg _ (by simp [ha])] at h
      rw [List.map_cons, List.find?_cons_of_neg _ (by simp [ha, updateRow])]
      exact ih h

lemma findRow_markProcessed_self (L : Ledger) (now : Nat) (gid : String)
    (nm : Option String) (ssid : Option Int) (status : String) (note : Option String)
    (r : Row) (h : findRow L gid = some r) :
    findRow (markProcessed L now gid nm ssid status note) gid =
      some (updateRow now nm ssid status note r) := by
  have hw : wasProcessed L gid = true := by simp [wasProcessed, h]
  simp only [markProcessed, hw, if_true]
  exact findRow_update_map L now gid nm ssid status note r h

/-! ## Per-order loop lemmas -/

lemma processOrder_ledger_cases (env : Env) (st : PassState) (o : ShopifyOrder) :
    (processOrder env st o).ledger = st.ledger ∨
    ∃ ssid status note, (processOrder env st o).ledger =
      markProcessed st.ledger st.clock o.id o.name ssid status note := by
  unfold processOrder
  cases hiss : isShopifyAddressIssue o with
  | false => simp
  | true =>
    cases hp : wasProcessed st.ledger o.id with
    | true => simp [hp]
    | false =>
      by_cases hnum : orderNumberFromShopifyName o.name = ""
      · simp [hp, hnum]
      · cases hfind : findShipStationOrder (env.lookup (orderNumberFromShopifyName o.name)) with
        | none =>
            refine Or.inr ⟨none, "not_found", some "Not found in ShipStation yet", ?_⟩
            simp [hp, hnum, hfind]
        | some ss =>
            cases htag : env.tag ss.orderId with
            | ok =>
                refine Or.inr ⟨some ss.orderId, "tagged", some (taggedNote o), ?_⟩
                simp [hp, hnum, hfind, htag]
            | err msg =>
                refine Or.inr ⟨none, "error", some msg, ?_⟩
                simp [hp, hnum, hfind, htag]

lemma processOrder_wasProcessed_mono (env : Env) (st : PassState) (o : ShopifyOrder)
    (g : String) (h : wasProcessed st.ledger g = true) :
    wasProcessed (processOrder env st o).ledger g = true := by
  rcases processOrder_ledger_cases env st o with hc | ⟨ssid, status, note, hc⟩ <;> rw [hc]
  · exact h
  · exact wasProcessed_markProcessed_mono _ _ _ _ _ _ _ _ h

lemma processOrder_writes (env : Env) (st : PassState) (o : ShopifyOrder)
    (hiss : isShopifyAddressIssue o = true)
    (hnum : orderNumberFromShopifyName o.name ≠ "") :
    wasProcessed (processOrder env st o).ledger o.id = true := by
  cases hp : wasProcessed st.ledger o.id with
  | true => exact processOrder_wasProcessed_mono env st o o.id hp
  | false =>
    unfold processOrder
    cases hfind : findShipStationOrder (env.lookup (orderNumberFromShopifyName o.name)) with
    | none =>
        simp [hiss, hp, hnum, hfind, wasProcessed_markProcessed_self]
    | some ss =>
        cases htag : env.tag ss.orderId with
        | ok =>
            simp [hiss, hp, hnum, hfind, htag, wasProcessed_markProcessed_self]
        | err msg =>
            simp [hiss, hp, hnum, hfind, htag, wasProcessed_markProcessed_self]

lemma processOrder_ledger_id (env : Env) (st : PassState) (o : ShopifyOrder)
    (h : isShopifyAddressIssue o = true → orderNumberFromShopifyName o.name ≠ "" →
         wasProcessed st.ledger o.id = true) :
    (processOrder env st o).ledger = st.ledger := by
  unfold processOrder
  cases hiss : isShopifyAddressIssue o with
  | false => simp
  | true =>
    cases hp : wasProcessed st.ledger o.id with
    | true => simp [hp]
    | false =>
      have hnum : orderNumberFromShopifyName o.name = "" := by
        by_contra hne
        rw [h hiss hne] at hp
        cases hp
      simp [hp, hnum]

lemma foldl_wasProcessed_mono (env : Env) (orders : List ShopifyOrder) (st : PassState)
    (g : String) (h : wasProcessed st.ledger g = true) :
    wasProcessed (orders.foldl (processOrder env) st).ledger g = true := by
  induction orders generalizing st with
  | nil => exact h
  | cons a as ih => exact ih _ (processOrder_wasProcessed_mono env st a g h)

lemma foldl_covers (env : Env) (orders : List ShopifyOrder) (st : PassState) :
    ∀ o ∈ orders, isShopifyAddressIssue o = true → orderNumberFromShopifyName o.name ≠ "" →
      wasProcessed (orders.foldl (processOrder env) st).ledger o.id = true := by
  induction orders generalizing st with
  | nil => intro o ho; cases ho
  | cons a as ih =>
    intro o ho hiss hnum
    rcases List.mem_cons.1 ho with rfl | ho'
    · exact foldl_wasProcessed_mono env as _ o.id (processOrder_writes env st o hiss hnum)
    · exact ih (processOrder env st a) o ho' hiss hnum

lemma foldl_ledger_id (env : Env) (orders : List ShopifyOrder) (st : PassState)
    (h : ∀ o ∈ orders, isShopifyAddressIssue o = true →
         orderNumberFromShopifyName o.name ≠ "" → wasProcessed st.ledger o.id = true) :
    (orders.foldl (processOrder env) st).ledger = st.ledger := by
  induction orders generalizing st with
  | nil => rfl
  | cons a as ih =>
    have h1 : (processOrder env st a).ledger = st.ledger :=
      processOrder_ledger_id env st a (fun hiss hnum => h a (List.mem_cons_self a as) hiss hnum)
    rw [List.foldl_cons]
    refine (ih (processOrder env st a) ?_).trans h1
    intro o ho hiss hnum
    rw [h1]
    exact h o (List.mem_cons_of_mem a ho) hiss hnum

lemma nodup_keys_processOrder (env : Env) (st : PassState) (o : ShopifyOrder)
    (h : (keys st.ledger).Nodup) :
    (keys (processOrder env st o).ledger).Nodup := by
  rcases processOrder_ledger_cases env st o with hc | ⟨ssid, status, note, hc⟩ <;> rw [hc]
  · exact h
  · exact nodup_keys_markProcessed _ _ _ _ _ _ _ h

lemma nodup_keys_foldl (env : Env) (orders : List ShopifyOrder) (st : PassState)
    (h : (keys st.ledger).Nodup) :
    (keys (orders.foldl (processOrder env) st).ledger).Nodup := by
  induction orders generalizing st with
  | nil => exact h
  | cons a as ih => exact ih _ (nodup_keys_processOrder env st a h)

/-! ## Claims -/

/-- C1 counterexample: the claim states the classifier predicate — including
`isAddressVerificationFailed` — returns true for the warning-equivalent value of the 4-value
enum.  ShipStation's warning-equivalent vocabulary value is "Address validation warning"
(the comment above `ADDRESS_FAILED_VALUE`), and `isAddressVerificationFailed` returns false
on it: that classifier matches only the failed value. -/
theorem C1_counterexample :
    has_address_issue_spec AddrStatus.warning = true ∧
    isAddressVerificationFailed (ssOrderWith (shipstationVocab AddrStatus.warning)) = false := by
  decide

/-- C1 amended: `isShopifyAddressIssue` returns true exactly for the warning/failed
equivalents of the 4-value enum (case-insensitively, null/missing treated as not-validated
and false), while `isAddressVerificationFailed` returns true exactly for the
failed-equivalent value (case-insensitively, null/missing false) — warning-equivalent
inputs yield false there. -/
theorem C1_theorem :
    (∀ e : AddrStatus,
      isShopifyAddressIssue (shopifyOrderWith (shopifyVocab e)) = has_address_issue_spec e) ∧
    (∀ e : AddrStatus,
      isAddressVerificationFailed (ssOrderWith (shipstationVocab e)) = (e == AddrStatus.failed)) ∧
    isShopifyAddressIssue (shopifyOrderWith (some "warning")) = true ∧
    isShopifyAddressIssue (shopifyOrderWith (some "Error")) = true ∧
    isShopifyAddressIssue (shopifyOrderWith none) = false ∧
    isShopifyAddressIssue { id := "g", name := some "#1", shippingAddress := none } = false ∧
    isAddressVerificationFailed (ssOrderWith (some "ADDRESS VALIDATION FAILED")) = true ∧
    isAddressVerificationFailed (ssOrderWith none) = false ∧
    isAddressVerificationFailed { shipTo := none } = false :=
  ⟨fun e => by cases e <;> decide, fun e => by cases e <;> decide, by decide, by decide,
   by decide, by decide, by decide, by decide, by decide⟩

/-- C2: the ledger holds at most one row per Shopify order gid — distinctness of the gid
column is preserved by every `markProcessed` upsert and by every pass, and re-processing an
identifier already present updates in place, inserting no second row (the row count is
unchanged). -/
theorem C2_theorem :
    (∀ (L : Ledger) (now : Nat) (gid : String) (nm : Option String) (ssid : Option Int)
        (status : String) (note : Option String), (keys L).Nodup →
        (keys (markProcessed L now gid nm ssid status note)).Nodup) ∧
    (∀ (L : Ledger) (now : Nat) (gid : String) (nm : Option String) (ssid : Option Int)
        (status : String) (note : Option String), wasProcessed L gid = true →
        (markProcessed L now gid nm ssid status note).length = L.length) ∧
    (∀ (env : Env) (startTime fetchEndTime : Nat) (s : PollerState), (keys s.ledger).Nodup →
        (keys (pollOnce env startTime fetchEndTime s).1.ledger).Nodup) := by
  refine ⟨?_, ?_, ?_⟩
  · intro L now gid nm ssid status note h
    exact nodup_keys_markProcessed L now gid nm ssid status note h
  · intro L now gid nm ssid status note h
    exact length_markProcessed_of_processed L now gid nm ssid status note h
  · intro env startTime fetchEndTime s h
    unfold pollOnce
    cases hf : env.fetch (sinceOf s.watermark startTime) with
    | err => exact h
    | ok orders => exact nodup_keys_foldl env orders ⟨s.ledger, Stats.zero, fetchEndTime⟩ h

/-- C2 witness: the dedup invariant instantiated at concrete inputs. -/
theorem C2_witness :
    (keys (markProcessed [] 0 "g" none none "tagged" none)).Nodup ∧
    (markProcessed [rowG] 1 "g" none none "error" none).length = [rowG].length ∧
    (keys (pollOnce envEmpty 0 0 ⟨none, []⟩).1.ledger).Nodup :=
  ⟨C2_theorem.1 [] 0 "g" none none "tagged" none (by decide),
   C2_theorem.2.1 [rowG] 1 "g" none none "error" none (by decide),
   C2_theorem.2.2 envEmpty 0 0 ⟨none, []⟩ (by decide)⟩

/-- C3 counterexample: a successful pass starting at instant 0 whose Shopify fetch
completes at instant 5 stores watermark 5 — `newSince = new Date().toISOString()` runs
*after* `fetchShopifyOrdersUpdatedSince` returns — refuting that the new watermark equals
the pass start time. -/
theorem C3_counterexample :
    (pollOnce envEmpty 0 5 ⟨some 0, []⟩).1.watermark = some 5 ∧ (5 : Nat) ≠ 0 := by
  exact ⟨rfl, by decide⟩

/-- C3 amended: after a successful pass the watermark equals the fetch-completion instant
(the moment `newSince` is captured, right after the paged fetch returns), not the pass
start; given the wall clock did not move backwards since the old watermark, the watermark
is non-decreasing.  The scan window is therefore `[old_watermark, fetch_completion_time)`. -/
theorem C3_theorem (env : Env) (startTime fetchEndTime : Nat) (s s' : PollerState)
    (stats : Stats) (h : pollOnce env startTime fetchEndTime s = (s', some stats)) :
    s'.watermark = some fetchEndTime ∧
    ∀ w, s.watermark = some w → w ≤ fetchEndTime →
      ∃ w', s'.watermark = some w' ∧ w ≤ w' := by
  unfold pollOnce at h
  cases hf : env.fetch (sinceOf s.watermark startTime) with
  | err =>
      rw [hf] at h
      simp [Prod.ext_iff] at h
  | ok orders =>
      rw [hf] at h
      injection h with h1 h2
      subst h1
      exact ⟨rfl, fun w hw hle => ⟨fetchEndTime, rfl, hle⟩⟩

/-- C3 witness: the amended watermark property at a concrete successful pass. -/
theorem C3_witness :
    (⟨some 5, []⟩ : PollerState).watermark = some 5 ∧
    ∀ w, (⟨some 3, []⟩ : PollerState).watermark = some w → w ≤ 5 →
      ∃ w', (⟨some 5, []⟩ : PollerState).watermark = some w' ∧ w ≤ w' :=
  C3_theorem envEmpty 0 5 ⟨some 3, []⟩ ⟨some 5, []⟩ Stats.zero rfl

/-- C5: when the Shopify fetch of a pass throws, `pollOnce` aborts before any write: the
whole poller state — in particular the stored watermark — is returned unchanged, so the
next pass re-scans the same since-window. -/
theorem C5_theorem (env : Env) (startTime fetchEndTime : Nat) (s : PollerState)
    (h : env.fetch (sinceOf s.watermark startTime) = .err) :
    pollOnce env startTime fetchEndTime s = (s, none) ∧
    (pollOnce env startTime fetchEndTime s).1.watermark = s.watermark := by
  have hmain : pollOnce env startTime fetchEndTime s = (s, none) := by
    unfold pollOnce
    rw [h]
  exact ⟨hmain, by rw [hmain]⟩

/-- C5 witness: a concrete failing fetch leaves the state (watermark 7) untouched. -/
theorem C5_witness :
    pollOnce envDown 0 5 ⟨some 7, []⟩ = (⟨some 7, []⟩, none) ∧
    (pollOnce envDown 0 5 ⟨some 7, []⟩).1.watermark =
      (⟨some 7, []⟩ : PollerState).watermark :=
  C5_theorem envDown 0 5 ⟨some 7, []⟩ rfl

/-- C4 counterexample: a pass in which the ShipStation search for a fresh issue order
throws ("ECONNRESET").  `findShipStationOrder` swallows the error and returns null, so the
ledger records status "not_found" with the fixed note "Not found in ShipStation yet" — not
status "error" with the error detail as the claim states. -/
theorem C4_counterexample :
    (findRow (pollOnce envLookupErr 0 5 ⟨some 0, []⟩).1.ledger "gid:1").map Row.status =
      some "not_found" ∧
    (findRow (pollOnce envLookupErr 0 5 ⟨some 0, []⟩).1.ledger "gid:1").map Row.note =
      some (some "Not found in ShipStation yet") ∧
    "not_found" ≠ "error" := by
  exact ⟨rfl, rfl, by decide⟩

/-- C4 amended: a transient destination-lookup failure is caught per order — but inside
`findShipStationOrder`, which returns null, so the order is recorded with status
"not_found" and the fixed note "Not found in ShipStation yet" (indistinguishable from a
genuinely absent order; the error detail is not recorded and the `error` status is reserved
for tag-application failures).  The pass is not aborted: the loop body is a total state
update that increments only the not-found counter. -/
theorem C4_theorem (env : Env) (st : PassState) (o : ShopifyOrder) (msg : String)
    (hiss : isShopifyAddressIssue o = true)
    (hp : wasProcessed st.ledger o.id = false)
    (hnum : orderNumberFromShopifyName o.name ≠ "")
    (hlook : env.lookup (orderNumberFromShopifyName o.name) = .err msg) :
    processOrder env st o =
      { st with
        stats := { st.stats with
          inspected := st.stats.inspected + 1,
          addressIssues := st.stats.addressIssues + 1,
          notInShipStation := st.stats.notInShipStation + 1 },
        ledger := markProcessed st.ledger st.clock o.id o.name none "not_found"
          (some "Not found in ShipStation yet"),
        clock := st.clock + 1 } := by
  have hfind : findShipStationOrder (env.lookup (orderNumberFromShopifyName o.name)) = none := by
    rw [hlook]
    rfl
  unfold processOrder
  simp [hiss, hp, hnum, hfind]

/-- C4 witness: the amended per-order handling at a concrete failing lookup. -/
theorem C4_witness :
    processOrder envLookupErr ⟨[], Stats.zero, 5⟩ oIssue =
      ⟨[⟨"gid:1", some "#1001", none, "not_found", some "Not found in ShipStation yet", 5, 5⟩],
       ⟨1, 1, 0, 1, 0, 0⟩, 6⟩ :=
  C4_theorem envLookupErr ⟨[], Stats.zero, 5⟩ oIssue "ECONNRESET" (by decide) (by decide)
    (by decide) rfl

/-- C6: running a pass twice over the same fetched orders with the same external world and
the watermark held fixed leaves the ledger after the second run identical to the ledger
after the first — in the second run every issue order is either already ledgered (skipped,
no write) or has an empty order number (skipped silently), so no row is added, removed or
changed. -/
theorem C6_theorem (env : Env) (startTime f1 f2 : Nat) (s s1 : PollerState) (stats1 : Stats)
    (h1 : pollOnce env startTime f1 s = (s1, some stats1)) :
    (pollOnce env startTime f2 ⟨s.watermark, s1.ledger⟩).1.ledger = s1.ledger := by
  unfold pollOnce at h1 ⊢
  cases hf : env.fetch (sinceOf s.watermark startTime) with
  | err =>
      rw [hf] at h1
  | ok orders =>
      rw [hf] at h1
      injection h1 with ha hb
      subst ha
      simp only [hf]
      exact foldl_ledger_id env orders _
        (fun o ho hiss hnum => foldl_covers env orders ⟨s.ledger, Stats.zero, f1⟩ o ho hiss hnum)

/-- C6 witness: re-running the concrete failing-lookup pass leaves the one-row ledger
unchanged. -/
theorem C6_witness :
    (pollOnce envLookupErr 0 9 ⟨some 0, [rowNF]⟩).1.ledger = [rowNF] :=
  C6_theorem envLookupErr 0 5 9 ⟨some 0, []⟩ ⟨some 5, [rowNF]⟩ ⟨1, 1, 0, 1, 0, 0⟩ rfl

/-- C7: an issue order whose gid already has a ledger entry is skipped with no ledger
write — the resulting pass state keeps the ledger (hence the existing entry, whatever its
status) bit-for-bit unchanged and increments only the inspected, issue and
skipped-already counters. -/
theorem C7_theorem (env : Env) (st : PassState) (o : ShopifyOrder)
    (hiss : isShopifyAddressIssue o = true)
    (hp : wasProcessed st.ledger o.id = true) :
    processOrder env st o =
      { st with
        stats := { st.stats with
          inspected := st.stats.inspected + 1,
          addressIssues := st.stats.addressIssues + 1,
          skippedAlready := st.stats.skippedAlready + 1 },
        clock := st.clock + 1 } := by
  unfold processOrder
  simp [hiss, hp]

/-- C7 witness: the skip at a concrete already-ledgered order. -/
theorem C7_witness :
    processOrder envEmpty ⟨[rowG], Stats.zero, 0⟩ oG = ⟨[rowG], ⟨1, 1, 0, 0, 1, 0⟩, 1⟩ :=
  C7_theorem envEmpty ⟨[rowG], Stats.zero, 0⟩ oG (by decide) (by decide)

/-- C8: `markProcessed` is an upsert keyed by the gid — on an existing row it overwrites
the name, ShipStation order id, status, note and `updated_at` (with the JS `|| null`
coercions on the bind parameters), leaves `created_at` of the existing row unchanged, and
adds no row. -/
theorem C8_theorem (L : Ledger) (now : Nat) (gid : String) (nm : Option String)
    (ssid : Option Int) (status : String) (note : Option String) (r : Row)
    (h : findRow L gid = some r) :
    findRow (markProcessed L now gid nm ssid status note) gid =
      some { r with shopify_order_name := nm, shipstation_order_id := intOrNull ssid,
                    status := status, note := strOrNull note, updated_at := now } ∧
    (markProcessed L now gid nm ssid status note).length = L.length :=
  ⟨findRow_markProcessed_self L now gid nm ssid status note r h,
   length_markProcessed_of_processed L now gid nm ssid status note (by simp [wasProcessed, h])⟩

/-- C8 witness: upserting over `rowOld` overwrites the payload, sets `updated_at` to 10 and
keeps `created_at` at 3. -/
theorem C8_witness :
    findRow (markProcessed [rowOld] 10 "g" (some "#1") (some 42) "tagged" (some "ok")) "g" =
      some ⟨"g", some "#1", some 42, "tagged", some "ok", 3, 10⟩ ∧
    (markProcessed [rowOld] 10 "g" (some "#1") (some 42) "tagged" (some "ok")).length =
      [rowOld].length :=
  C8_theorem [rowOld] 10 "g" (some "#1") (some 42) "tagged" (some "ok") rowOld rfl

/-- C9 counterexample: with poll interval 10, pass 1 takes 20 > 10, and pass 2 — fired by
`setInterval`, which has no in-progress guard — starts while pass 1 is still running:
pass 2 begins at instant 25, before pass 1 ends at instant 35. -/
theorem C9_counterexample : 10 < dEx 1 ∧ startsDuringPrior dEx 10 1 := by
  constructor
  · decide
  · show passStartTime dEx 10 2 < passStartTime dEx 10 1 + dEx 1
    decide

/-- C9 amended: the `setInterval` scheduler fires on the fixed interval with no in-progress
guard, so whenever a non-initial pass runs longer than the poll interval, the next pass
starts while it is still running — passes do overlap. -/
theorem C9_theorem (d : Nat → Nat) (interval k : Nat) (h : interval < d (k + 1)) :
    startsDuringPrior d interval (k + 1) := by
  show passStartTime d interval (k + 2) < passStartTime d interval (k + 1) + d (k + 1)
  show d 0 + (k + 2) * interval < d 0 + (k + 1) * interval + d (k + 1)
  have h2 : (k + 2) * interval = (k + 1) * interval + interval := by ring
  rw [h2]
  generalize (k + 1) * interval = a
  omega

/-- C9 witness: the overlap at the concrete durations `dEx` and interval 10. -/
theorem C9_witness : startsDuringPrior dEx 10 1 :=
  C9_theorem dEx 10 0 (by decide)

/-- C10: an issue order not yet in the ledger whose name normalises to an empty order
number (strip one "#", trim) is skipped silently — no ledger write, and of the counters
only inspected and issue are incremented; newly-tagged, not-found, skipped-already and
error counters stay put. -/
theorem C10_theorem (env : Env) (st : PassState) (o : ShopifyOrder)
    (hiss : isShopifyAddressIssue o = true)
    (hp : wasProcessed st.ledger o.id = false)
    (hnum : orderNumberFromShopifyName o.name = "") :
    processOrder env st o =
      { st with
        stats := { st.stats with
          inspected := st.stats.inspected + 1,
          addressIssues := st.stats.addressIssues + 1 },
        clock := st.clock + 1 } := by
  unfold processOrder
  simp [hiss, hp, hnum]

/-- C10 witness: the silent skip at the concrete order named "#". -/
theorem C10_witness :
    processOrder envEmpty ⟨[], Stats.zero, 7⟩ oHash = ⟨[], ⟨1, 1, 0, 0, 0, 0⟩, 8⟩ :=
  C10_theorem envEmpty ⟨[], Stats.zero, 7⟩ oHash (by decide) (by decide) (by decide)

end AddressIssue
